import Mathlib

/-!
A verification development for the caresync term-mapping core.

The Python source is shallowly embedded:
* `services/safeguards.py` — resource guard, audit logging, and the
  orchestrator governance state machine (`OrchestratorState`);
* `services/mapping_engine.py` — the AYUSH → ICD-11 resolution pipeline
  (`MappingEngine.exact_match`, `rule_match`, `embedding_candidates`,
  `compute_confidence`, `suggest`);
* `routes/orchestrator.py` — the review-queue resolve endpoint.

Modelling conventions:
* Python `str` is Lean `String` (in this toolchain a `List Char` wrapper);
  `str.lower`/`str.strip` are modelled for ASCII text by `pyLower`/`pyStrip`.
* Python floats are modelled as exact rationals `ℚ`.
* Wall-clock timestamps are seconds as `Nat`.
* Database / network effects are modelled by explicit state passing
  (audit records produced by a call are returned as a list; fallible
  external calls are function parameters returning `Except`).
-/

namespace Caresync

/-! ## Python string primitives (ASCII model) -/

/-- Python's `c.lower()` on one ASCII character; this is exactly core
`Char.toLower` (maps `A`–`Z` to `a`–`z`, fixes everything else). -/
def pyLowerChar (c : Char) : Char := c.toLower

/-- Whitespace test used by Python's `str.strip()` (ASCII subset). -/
def isWS (c : Char) : Bool := c.isWhitespace

/-- Drop leading and trailing whitespace from a character list. -/
def stripList (l : List Char) : List Char :=
  ((l.dropWhile isWS).reverse.dropWhile isWS).reverse

/-- Python `s.strip()` (ASCII whitespace model). -/
def pyStrip (s : String) : String := ⟨stripList s.data⟩

/-- Python `s.lower()` (ASCII model). -/
def pyLower (s : String) : String := ⟨s.data.map pyLowerChar⟩

/-- Does `needle` occur at the head of `hay`? -/
def listStarts : List Char → List Char → Bool
  | [], _ => true
  | _ :: _, [] => false
  | c :: cs, d :: ds => c == d && listStarts cs ds

/-- Does `needle` occur as a contiguous sublist of `hay`? -/
def listHasSub (needle : List Char) : List Char → Bool
  | [] => needle.isEmpty
  | d :: ds => listStarts needle (d :: ds) || listHasSub needle ds

/-- Python's substring test `needle in hay`. -/
def pyIn (needle hay : String) : Bool := listHasSub needle.data hay.data

/-- Python's `words = s.split()`: split on whitespace runs, no empty parts. -/
def pySplit (s : String) : List String :=
  (s.split (fun c => c.isWhitespace)).filter (fun w => w ≠ "")

/-- Python's binary `min` on numbers. -/
def pyMin (a b : ℚ) : ℚ := if a ≤ b then a else b

/-- Python's binary `max` on numbers. -/
def pyMax (a b : ℚ) : ℚ := if b ≤ a then a else b

/-! ## safeguards.py — protected resources and the write guard -/

/-- The hardcoded default protected-resource set from
`_load_mapping_resources` (used when no config file is present). -/
def MAPPING_DATA_RESOURCES_default : List String :=
  [ "namaste.csv",
    "data/namaste.csv",
    "namaste_mappings_table",
    "ayush_terms",
    "mapping_candidates",
    "mapping_index_faiss",
    "data/faiss_index.bin",
    "mapping_model_weights",
    "data/reranker.joblib" ]

/-- `resource.replace("\\", "/")` — for the one-character pattern used in
`is_mapping_resource` this is exactly a per-character substitution. -/
def normalizeSeps (s : String) : String :=
  ⟨s.data.map (fun c => if c = '\\' then '/' else c)⟩

/-- `safeguards.is_mapping_resource`, parameterized by the loaded
protected-resource set `resources` (the module-level
`MAPPING_DATA_RESOURCES`). -/
def is_mapping_resource (resources : List String) (resource : String) : Bool :=
  let normalized := normalizeSeps resource
  -- exact match against the set
  resources.any (fun p => p == normalized) ||
  -- any protected resource contained in the path
  resources.any (fun p => pyIn p normalized)

/-- One row of the `orchestrator_audit` table, restricted to the scalar
columns the guard populates (`payload_summary`/`evidence` JSON blobs and
`model_version` are not modelled). -/
structure AuditRecord where
  action : String
  actor : String
  status : String
  resource_target : Option String
  attempted_write : Bool
  error_message : Option String
  encounter_id : Option String
  deriving DecidableEq

/-- `safeguards.audit_log`: builds an audit row and hands it to the
database session (`append`); any exception from the session is swallowed
and `-1` is returned instead. -/
def audit_log (append : AuditRecord → Except String Int)
    (action actor status : String)
    (resource_target : Option String) (attempted_write : Bool)
    (error_message : Option String) (encounter_id : Option String) : Int :=
  let entry : AuditRecord :=
    { action := action, actor := actor, status := status,
      resource_target := resource_target, attempted_write := attempted_write,
      error_message := error_message, encounter_id := encounter_id }
  match append entry with
  | .ok audit_id => audit_id
  | .error _ => -1

/-- `safeguards.OrchestratorState` (`_mode`, `_blocked_write_count`,
`_last_reset`); the timestamp is seconds as `Nat`. -/
structure OrchestratorState where
  mode : String
  blocked_write_count : Nat
  last_reset : Nat
  deriving DecidableEq

/-- `OrchestratorState.__init__`. -/
def OrchestratorState.init (now : Nat) : OrchestratorState :=
  { mode := "active", blocked_write_count := 0, last_reset := now }

/-- `OrchestratorState.pause` (the admin notification is a log line and is
not modelled). -/
def OrchestratorState.pause (s : OrchestratorState) : OrchestratorState :=
  { s with mode := "paused" }

/-- `OrchestratorState.resume`. -/
def OrchestratorState.resume (s : OrchestratorState) : OrchestratorState :=
  { s with mode := "active" }

/-- `OrchestratorState.set_manual`. -/
def OrchestratorState.set_manual (s : OrchestratorState) : OrchestratorState :=
  { s with mode := "manual" }

/-- `OrchestratorState.is_active`. -/
def OrchestratorState.is_active (s : OrchestratorState) : Bool :=
  s.mode == "active"

/-- `OrchestratorState.increment_blocked_writes`, with the current time
passed explicitly (`datetime.utcnow()` in the source). -/
def OrchestratorState.increment_blocked_writes (s : OrchestratorState) (now : Nat) :
    OrchestratorState :=
  let s1 := { s with blocked_write_count := s.blocked_write_count + 1 }
  if s1.blocked_write_count ≥ 3 then
    if now - s1.last_reset < 3600 then s1.pause else s1
  else s1

/-- `OrchestratorState.reset_blocked_writes`. -/
def OrchestratorState.reset_blocked_writes (s : OrchestratorState) (now : Nat) :
    OrchestratorState :=
  { s with blocked_write_count := 0, last_reset := now }

/-- Result of one `safe_write` call: Python's `return True` becomes
`allowed`; the raised `PermissionError` becomes `blocked` with its
message. -/
inductive WriteOutcome where
  | allowed
  | blocked (msg : String)
  deriving DecidableEq

/-- The observable effect of one `safe_write` call: its outcome, the audit
records it submitted, and the governance state afterwards. -/
structure SafeWriteResult where
  outcome : WriteOutcome
  audits : List AuditRecord
  state : OrchestratorState
  deriving DecidableEq

/-- `safeguards.safe_write`, parameterized by the protected-resource set
and the governance state (the module-global `orchestrator_state`). -/
def safe_write (resources : List String) (resource : String) (actor : String)
    (encounter_id : Option String) (s : OrchestratorState) (now : Nat) :
    SafeWriteResult :=
  if is_mapping_resource resources resource then
    { outcome := .blocked
        ("Blocked attempt to write to mapping resource: " ++ resource ++
         ". Mapping datastore is READ-ONLY."),
      audits := [{ action := "mapping_write_blocked", actor := actor,
                   status := "blocked", resource_target := some resource,
                   attempted_write := true,
                   error_message := some "Attempted write to protected mapping resource",
                   encounter_id := encounter_id }],
      state := s.increment_blocked_writes now }
  else
    { outcome := .allowed, audits := [], state := s }

/-! ## mapping_engine.py — the resolution pipeline -/

/-- One value of `MappingEngine.ayush_map` (a row loaded from
`data/namaste.csv`). -/
structure AyushEntry where
  ayush : String
  code : String
  icd_code : String
  definition : String
  deriving DecidableEq

/-- One value of `MappingEngine.icd11_map` (a row loaded from
`data/icd11_codes.csv`). -/
structure Icd11Entry where
  code : String
  title : String
  description : String
  deriving DecidableEq

/-- Python `dict.get(key)` over an association list. -/
def dictGet (m : List (String × α)) (key : String) : Option α :=
  (m.find? (fun p => p.1 == key)).map (fun p => p.2)

/-- One entity of the WHO ICD-11 API response (`destinationEntities`). -/
structure ApiEntity where
  theCode : String
  title : String
  deriving DecidableEq

/-- An in-flight candidate dict of `embedding_candidates` / `suggest`
(fields are the dict keys the source reads or writes). -/
structure Candidate where
  icd_code : String
  icd_title : String
  icd_description : String
  distance : ℚ
  confidence : Option ℚ
  prov_step : String
  prov_source : String
  prov_method : Option String
  prov_reranker_prob : Option ℚ
  deriving DecidableEq

/-- `MappingEngine`, with the loaded catalogs as association lists and the
external collaborators as explicit parameters: `faiss` is
`some query` when `self.faiss.is_loaded()` (the query returning distances
or raising), `reranker` is the loaded model's `predict_proba` positive
column (or raising), `icd11_service` the optional WHO API search. -/
structure MappingEngine where
  ayush_map : List (String × AyushEntry)
  icd11_map : List (String × Icd11Entry)
  faiss : Option (String → Nat → Except String (List ℚ))
  reranker : Option (List (List ℚ) → Except String (List ℚ))
  icd11_service : Option (String → Except String (List ApiEntity))

/-- Return value of `MappingEngine.exact_match` (the second source branch
returns no `icd_description` key, hence the `Option`). -/
structure ExactInfo where
  icd_code : String
  icd_title : String
  icd_description : Option String
  ayush_term : String
  source : String
  deriving DecidableEq

/-- `MappingEngine.exact_match`. -/
def exact_match (e : MappingEngine) (term : String) : Option ExactInfo :=
  let term_lower := pyLower (pyStrip term)
  match dictGet e.ayush_map term_lower with
  | none => none
  | some exact =>
    if exact.icd_code ≠ "" then
      match dictGet e.icd11_map exact.icd_code with
      | some icd11_info =>
        some { icd_code := exact.icd_code, icd_title := icd11_info.title,
               icd_description := some icd11_info.description,
               ayush_term := exact.ayush, source := "namaste_csv_exact_match" }
      | none =>
        -- ICD code exists but not in our CSV, return what we have
        some { icd_code := exact.icd_code,
               icd_title := "ICD-11 Code: " ++ exact.icd_code,
               icd_description := none,
               ayush_term := exact.ayush, source := "namaste_csv_exact_match" }
    else
      -- No ICD code (new NAMASTE term), return NAMASTE info
      some { icd_code := exact.code, icd_title := exact.ayush,
             icd_description := some exact.definition,
             ayush_term := exact.ayush, source := "namaste_csv_exact_match" }

/-- The literal `keyword_to_icd` table of `rule_match`, in declaration
order. -/
def keyword_to_icd : List (String × String) :=
  [ ("amlapitta", "K21.0"),
    ("aamla", "K21.0"),
    ("kasa", "J20.9"),
    ("shwasa", "J98.8"),
    ("jwara", "R50.9"),
    ("shotha", "M79.1"),
    ("aruchi", "R63.0"),
    ("amavata", "M79.3"),
    ("pandu", "D64.9"),
    ("kamala", "K59.0"),
    ("atisara", "K59.0"),
    ("grahani", "K58.9"),
    ("chhardi", "R11"),
    ("vibandha", "K59.0"),
    ("prameha", "E11.9"),
    ("apasmara", "G40.9"),
    ("shiroshula", "R51"),
    ("ardhavabhedaka", "G43.9"),
    ("netraroga", "H57.9"),
    ("timira", "H53.1") ]

/-- Return value of `MappingEngine.rule_match`. -/
structure RuleInfo where
  icd_code : String
  icd_title : String
  icd_description : String
  reason : String
  deriving DecidableEq

/-- `MappingEngine.rule_match`: first keyword occurring in the lower-cased
term wins; the matched code must also be present in `icd11_map`. -/
def rule_match (e : MappingEngine) (term : String) : Option RuleInfo :=
  let term_lower := pyLower term
  match keyword_to_icd.find? (fun p => pyIn p.1 term_lower) with
  | none => none
  | some (matched_keyword, matched_icd) =>
    match dictGet e.icd11_map matched_icd with
    | some icd11_info =>
      some { icd_code := matched_icd, icd_title := icd11_info.title,
             icd_description := icd11_info.description,
             reason := "keyword rule: " ++ matched_keyword ++ " -> " ++ matched_icd }
    | none => none

/-- `MappingEngine.embedding_candidates`: CSV text match over `icd11_map`,
sorted by ascending distance (Python's stable sort), optionally updated
with FAISS distances, truncated to `k`. -/
def embedding_candidates (e : MappingEngine) (term : String) (k : Nat) :
    List Candidate :=
  let term_lower := pyLower term
  let base : List Candidate := e.icd11_map.filterMap (fun p =>
    let title := pyLower p.2.title
    let description := pyLower p.2.description
    if pyIn term_lower title || pyIn term_lower description ||
       (pySplit term_lower).any (fun word => pyIn word title) then
      let match_score : ℚ :=
        (if pyIn term_lower title then 2 else 0) +
        (if pyIn term_lower description then 1 else 0) +
        (if (pySplit term_lower).any (fun word => pyIn word title) then 1/2 else 0)
      some { icd_code := p.1, icd_title := p.2.title,
             icd_description := p.2.description,
             distance := 10 - match_score, confidence := none,
             prov_step := "csv_text_match", prov_source := "icd11_csv",
             prov_method := none, prov_reranker_prob := none }
    else none)
  let sorted : List Candidate :=
    base.insertionSort (fun a b => a.distance ≤ b.distance)
  let updated : List Candidate :=
    match e.faiss with
    | some fq =>
      if sorted.length > 0 then
        match fq term (min (k * 2) sorted.length) with
        | .ok faiss_results =>
          (sorted.take (k * 2)).mapIdx (fun i cand =>
            match faiss_results.get? i with
            | some d => { cand with distance := d, prov_step := "csv_faiss_hybrid" }
            | none => cand) ++ sorted.drop (k * 2)
        | .error _ => sorted
      else sorted
    | none => sorted
  updated.take k

/-- `MappingEngine.compute_confidence`. -/
def compute_confidence (rule_score : ℚ) (distance : ℚ)
    (reranker_prob : Option ℚ := none) : ℚ :=
  -- Convert distance to similarity score (inverse relationship)
  let dist_score : ℚ := 1 / (1 + distance)
  -- Combine rule and distance scores
  let combined : ℚ := 0.6 * rule_score + 0.4 * dist_score
  -- Apply reranker adjustment if available
  let combined : ℚ :=
    match reranker_prob with
    | some p => 0.7 * combined + 0.3 * p
    | none => combined
  -- Clamp to [0, 1]
  pyMax 0 (pyMin 1 combined)

/-- `MappingEngine.lexical_overlap`. -/
def lexical_overlap (text1 text2 : String) : ℚ :=
  let words1 := (pySplit (pyLower text1)).dedup
  let words2 := (pySplit (pyLower text2)).dedup
  if words1.isEmpty then 0
  else ((words1.filter (fun w => words2.contains w)).length : ℚ) / (words1.length : ℚ)

/-- Remove every (leftmost, non-overlapping) occurrence of the nonempty
pattern `pat`: Python's `s.replace(pat, "")`. -/
def removeAllOcc (pat : List Char) : List Char → List Char
  | [] => []
  | c :: cs =>
    if pat ≠ [] ∧ listStarts pat (c :: cs) then
      removeAllOcc pat (List.drop (pat.length - 1) cs)
    else c :: removeAllOcc pat cs
termination_by l => l.length
decreasing_by
  all_goals simp only [List.length_cons, List.length_drop]; omega

/-- `raw_title.replace("<em class=...>", "").replace("</em>", "")` of the
API fallback block. -/
def stripEmTags (s : String) : String :=
  ⟨removeAllOcc "</em>".data (removeAllOcc ("<em class=\x27found\x27>").data s.data)⟩

/-- The WHO-API fallback block of `suggest`: when the local candidate list
is empty and a service is configured, take the first `k` entities,
stripping the highlight tags from titles; an exception or an empty
response contributes nothing. -/
def fallback_candidates (e : MappingEngine) (query_text : String) (k : Nat) :
    List Candidate :=
  match e.icd11_service with
  | none => []
  | some svc =>
    match svc query_text with
    | .error _ => []
    | .ok entities =>
      if entities.isEmpty then []
      else (entities.take k).map (fun ent =>
        { icd_code := ent.theCode,
          icd_title := stripEmTags ent.title,
          icd_description := "",
          distance := 0.5, confidence := some 0.8,
          prov_step := "api_fallback", prov_source := "who_icd11_api",
          prov_method := none, prov_reranker_prob := none })

/-- An element of the `results` list of a `suggest` response (the keys
read by every caller: code, title, confidence). -/
structure ResultItem where
  icd_code : String
  icd_title : String
  confidence : ℚ
  deriving DecidableEq

/-- One provenance dict appearing in a `suggest` response, one constructor
per literal dict shape in the source. -/
inductive ProvEntry where
  | exactStep (source term : String)
  | ruleStep (rule source : String)
  | faissError (error : String)
  | faissCount (candidates_considered : Nat)
  deriving DecidableEq

/-- A `suggest` response: `type`, `results`, the provenance list embedded
in each result (exact/rule branches), and the top-level `provenance` key
(present only in the faiss branch). -/
structure Outcome where
  type : String
  results : List ResultItem
  result_provenance : List ProvEntry
  provenance : Option (List ProvEntry)
  deriving DecidableEq

/-- The step-4 body of `suggest`: assign confidences (reranker or
distance-based), sort by descending confidence, truncate to `k`. -/
def rank_candidates (e : MappingEngine) (term : String) (k : Nat)
    (candidates : List Candidate) : List Candidate :=
  let distanceBased : List Candidate := candidates.map (fun cand =>
    { cand with confidence := some (compute_confidence 0.0 cand.distance) })
  let scored : List Candidate :=
    match e.reranker with
    | some rr =>
      if candidates.length > 1 then
        let features : List (List ℚ) := candidates.map (fun cand =>
          [cand.distance, lexical_overlap term cand.icd_title, 0.0, 0.0])
        match rr features with
        | .ok reranker_probs =>
          candidates.mapIdx (fun i cand =>
            let reranker_prob := reranker_probs.getD i 0.5
            { cand with
              confidence := some (compute_confidence 0.0 cand.distance (some reranker_prob)),
              prov_reranker_prob := some reranker_prob })
        | .error _ => distanceBased
      else distanceBased
    | none => distanceBased
  let sorted : List Candidate := scored.insertionSort
    (fun a b => (b.confidence.getD 0.0) ≤ (a.confidence.getD 0.0))
  (sorted.take k).map (fun result =>
    { result with prov_step := "faiss",
                  prov_method := some (if e.reranker.isSome then "reranker" else "distance") })

/-- The `query_text` of `suggest`: the term, with symptoms appended when
given. -/
def queryText (term : String) (symptoms : Option String) : String :=
  match symptoms with
  | some sym => term ++ " " ++ sym
  | none => term

/-- `MappingEngine.suggest` — the full pipeline. -/
def suggest (e : MappingEngine) (term : String) (symptoms : Option String)
    (k : Nat) : Outcome :=
  let query_text := queryText term symptoms
  -- Step 1: Exact match in NAMASTE CSV
  match exact_match e term with
  | some exact =>
    { type := "exact",
      results := [{ icd_code := exact.icd_code, icd_title := exact.icd_title,
                    confidence := 0.99 }],
      result_provenance := [.exactStep "namaste_csv" exact.ayush_term],
      provenance := none }
  | none =>
  -- Step 2: Rule match using keyword rules
  match rule_match e term with
  | some rule =>
    { type := "rule",
      results := [{ icd_code := rule.icd_code, icd_title := rule.icd_title,
                    confidence := compute_confidence 1.0 0.1 }],
      result_provenance := [.ruleStep rule.reason "csv_keyword_mapping"],
      provenance := none }
  | none =>
    -- Step 3: Text-based search in ICD-11 CSV (k*2 for reranking)
    let candidates := embedding_candidates e query_text (k * 2)
    let candidates :=
      if candidates.isEmpty then fallback_candidates e query_text k
      else candidates
    if candidates.isEmpty then
      { type := "faiss", results := [], result_provenance := [],
        provenance := some [.faissError "No candidates found"] }
    else
      let results := rank_candidates e term k candidates
      { type := "faiss",
        results := results.map (fun r =>
          { icd_code := r.icd_code, icd_title := r.icd_title,
            confidence := r.confidence.getD 0.0 }),
        result_provenance := [],
        provenance := some [.faissCount candidates.length] }

/-! ## routes/orchestrator.py — the review-queue resolve endpoint -/

/-- One row of the `review_queue` table (the columns the resolve endpoint
reads or writes; the JSON `resolution` payload is modelled as a string). -/
structure ReviewTask where
  id : Nat
  status : String
  resolution : Option String
  resolved_at : Option Nat
  assigned_to : Option String
  deriving DecidableEq

/-- The field updates `resolve_review_task` performs on the fetched row. -/
def resolveUpdate (resolution resolved_by : String) (now : Nat)
    (t : ReviewTask) : ReviewTask :=
  { t with status := "resolved", resolution := some resolution,
           resolved_at := some now, assigned_to := some resolved_by }

/-- Update the first row with the given id (SQLAlchemy
`filter(id == task_id).first()` on the primary key). -/
def updateTask (task_id : Nat) (f : ReviewTask → ReviewTask) :
    List ReviewTask → List ReviewTask
  | [] => []
  | t :: rest =>
    if t.id == task_id then f t :: rest else t :: updateTask task_id f rest

/-- Response of the resolve endpoint: HTTP 404 or success together with
the committed table. -/
inductive ResolveResponse where
  | notFound
  | ok (tasks : List ReviewTask) (task_id : Nat)
  deriving DecidableEq

/-- `routes/orchestrator.resolve_review_task` over the `review_queue`
table `tasks`. -/
def resolve_review_task (tasks : List ReviewTask) (task_id : Nat)
    (resolution resolved_by : String) (now : Nat) : ResolveResponse :=
  match tasks.find? (fun t => t.id == task_id) with
  | none => .notFound
  | some _ =>
    .ok (updateTask task_id (resolveUpdate resolution resolved_by now) tasks)
       task_id

/-! ## Spec-side definitions (for refinement claims) -/

/-- The confidence formula exactly as the spec words it:
`similarity = 1/(1+distance)`; `combined = 0.6*ruleScore + 0.4*similarity`;
if a reranker probability `p` is available,
`combined = 0.7*combined + 0.3*p`; clamp to `[0,1]`.
Stated from the spec, to be compared with `compute_confidence`. -/
def confidence_formula_spec (ruleScore distance : ℚ) (p : Option ℚ) : ℚ :=
  let similarity : ℚ := 1 / (1 + distance)
  let combined : ℚ := 0.6 * ruleScore + 0.4 * similarity
  let combined : ℚ :=
    match p with
    | some prob => 0.7 * combined + 0.3 * prob
    | none => combined
  min 1 (max 0 combined)

/-! ## Concrete fixtures used by witnesses -/

/-- The `"Jwara"` NAMASTE row of the documentation scenario. -/
def jwaraEntry : AyushEntry :=
  { ayush := "Jwara", code := "AYU-001", icd_code := "R50.9",
    definition := "Fever in traditional terminology" }

/-- The `R50.9` ICD-11 row. -/
def feverInfo : Icd11Entry :=
  { code := "R50.9", title := "Fever, unspecified",
    description := "Elevated body temperature" }

/-- Engine with the `Jwara → R50.9` link loaded. -/
def engJwara : MappingEngine :=
  { ayush_map := [("jwara", jwaraEntry), ("ayu-001", jwaraEntry)],
    icd11_map := [("R50.9", feverInfo)],
    faiss := none, reranker := none, icd11_service := none }

/-- Engine with an empty term catalog but `R50.9` available. -/
def engRuleOnly : MappingEngine :=
  { ayush_map := [], icd11_map := [("R50.9", feverInfo)],
    faiss := none, reranker := none, icd11_service := none }

/-- Engine with entirely empty catalogs and no collaborators. -/
def engEmpty : MappingEngine :=
  { ayush_map := [], icd11_map := [],
    faiss := none, reranker := none, icd11_service := none }

/-- A review task already in the terminal `dismissed` state. -/
def dismissedTask : ReviewTask :=
  { id := 1, status := "dismissed", resolution := some "keep",
    resolved_at := some 100, assigned_to := some "alice" }

/-! ## Helper lemmas: governance state machine -/

/-- An increment always adds exactly one to the blocked-write counter. -/
theorem increment_count (s : OrchestratorState) (now : Nat) :
    (s.increment_blocked_writes now).blocked_write_count =
      s.blocked_write_count + 1 := by
  simp only [OrchestratorState.increment_blocked_writes, OrchestratorState.pause]
  split
  · split <;> rfl
  · rfl

/-- An increment never moves the window start. -/
theorem increment_last_reset (s : OrchestratorState) (now : Nat) :
    (s.increment_blocked_writes now).last_reset = s.last_reset := by
  simp only [OrchestratorState.increment_blocked_writes, OrchestratorState.pause]
  split
  · split <;> rfl
  · rfl

/-- An increment outside the rolling window changes only the counter. -/
theorem increment_stale (s : OrchestratorState) (now : Nat)
    (h : s.last_reset + 3600 ≤ now) :
    s.increment_blocked_writes now =
      { s with blocked_write_count := s.blocked_write_count + 1 } := by
  have hlate : ¬ (now - s.last_reset < 3600) := by omega
  simp only [OrchestratorState.increment_blocked_writes, OrchestratorState.pause,
    if_neg hlate]
  split <;> rfl

/-! ## C8 -/

/-- C8: after any `pause()` followed by `resume()`, `is_active()` is true,
and the resume leaves `blocked_write_count` and the window start exactly as
they were before; only the distinct `reset_blocked_writes()` zeroes the
counter and restarts the window (leaving the mode alone). -/
theorem C8_resume_frame (s : OrchestratorState) (now : Nat) :
    (s.pause.resume).is_active = true ∧
    (s.pause.resume).blocked_write_count = s.blocked_write_count ∧
    (s.pause.resume).last_reset = s.last_reset ∧
    s.resume.blocked_write_count = s.blocked_write_count ∧
    s.resume.last_reset = s.last_reset ∧
    (s.reset_blocked_writes now).blocked_write_count = 0 ∧
    (s.reset_blocked_writes now).last_reset = now ∧
    (s.reset_blocked_writes now).mode = s.mode :=
  ⟨rfl, rfl, rfl, rfl, rfl, rfl, rfl, rfl⟩

/-! ## C2 -/

/-- C2: from a fresh `active` state, three blocked-write increments inside
the rolling hour flip the mode from `active` to `paused`; a fourth inside
the same window leaves it `paused` (and, being a total function, cannot
error). -/
theorem C2_three_blocks_pause (r t1 t2 t3 t4 : Nat)
    (h3 : t3 - r < 3600) (h4 : t4 - r < 3600) :
    (((OrchestratorState.init r).increment_blocked_writes t1).mode = "active") ∧
    ((((OrchestratorState.init r).increment_blocked_writes t1).increment_blocked_writes t2).mode = "active") ∧
    (((((OrchestratorState.init r).increment_blocked_writes t1).increment_blocked_writes t2).increment_blocked_writes t3).mode = "paused") ∧
    ((((((OrchestratorState.init r).increment_blocked_writes t1).increment_blocked_writes t2).increment_blocked_writes t3).increment_blocked_writes t4).mode = "paused") := by
  have e1 : (OrchestratorState.init r).increment_blocked_writes t1 =
      { mode := "active", blocked_write_count := 1, last_reset := r } := rfl
  have e2 : ({ mode := "active", blocked_write_count := 1, last_reset := r } :
      OrchestratorState).increment_blocked_writes t2 =
      { mode := "active", blocked_write_count := 2, last_reset := r } := rfl
  have e3 : ({ mode := "active", blocked_write_count := 2, last_reset := r } :
      OrchestratorState).increment_blocked_writes t3 =
      { mode := "paused", blocked_write_count := 3, last_reset := r } := by
    simp only [OrchestratorState.increment_blocked_writes, OrchestratorState.pause]
    rw [if_pos (by omega), if_pos h3]
  have e4 : ({ mode := "paused", blocked_write_count := 3, last_reset := r } :
      OrchestratorState).increment_blocked_writes t4 =
      { mode := "paused", blocked_write_count := 4, last_reset := r } := by
    simp only [OrchestratorState.increment_blocked_writes, OrchestratorState.pause]
    rw [if_pos (by omega), if_pos h4]
  rw [e1, e2, e3, e4]
  exact ⟨rfl, rfl, rfl, rfl⟩

/-- Witness for C2 at the concrete window start `0` and call times
`10, 20, 30, 40`. -/
theorem C2_three_blocks_pause_witness :
    ((30 - 0 < 3600) ∧ (40 - 0 < 3600)) ∧
    ((((OrchestratorState.init 0).increment_blocked_writes 10).mode = "active") ∧
     (((((OrchestratorState.init 0).increment_blocked_writes 10)).increment_blocked_writes 20).mode = "active") ∧
     ((((((OrchestratorState.init 0).increment_blocked_writes 10)).increment_blocked_writes 20).increment_blocked_writes 30).mode = "paused") ∧
     (((((((OrchestratorState.init 0).increment_blocked_writes 10)).increment_blocked_writes 20).increment_blocked_writes 30).increment_blocked_writes 40).mode = "paused")) :=
  ⟨⟨by decide, by decide⟩,
   C2_three_blocks_pause 0 10 20 30 40 (by decide) (by decide)⟩

/-! ## C10 -/

/-- C10: once more than an hour has passed since the last counter reset,
no sequence of further blocked-write increments can pause the governance
state: the mode and the window start are unchanged (only
`reset_blocked_writes` moves the window) while the counter grows by one
per call without bound. -/
theorem C10_stale_window_never_pauses (s : OrchestratorState) (ts : List Nat)
    (h : ∀ t ∈ ts, s.last_reset + 3600 ≤ t) :
    (ts.foldl (fun st t => st.increment_blocked_writes t) s).mode = s.mode ∧
    (ts.foldl (fun st t => st.increment_blocked_writes t) s).last_reset = s.last_reset ∧
    (ts.foldl (fun st t => st.increment_blocked_writes t) s).blocked_write_count =
      s.blocked_write_count + ts.length := by
  induction ts generalizing s with
  | nil => exact ⟨rfl, rfl, rfl⟩
  | cons t rest ih =>
    have hstep := increment_stale s t (h t (by simp))
    have hrest : ∀ u ∈ rest,
        ({ s with blocked_write_count := s.blocked_write_count + 1 } :
          OrchestratorState).last_reset + 3600 ≤ u :=
      fun u hu => h u (by simp [hu])
    have := ih { s with blocked_write_count := s.blocked_write_count + 1 } hrest
    simp only [List.foldl_cons, hstep]
    refine ⟨this.1, this.2.1, ?_⟩
    rw [this.2.2]
    simp only [List.length_cons]
    omega

/-- Witness for C10: a stale state (`last_reset = 0`, already 5 blocked
writes) incremented three more times well after the hour mark stays
`active` with the counter at 8. -/
theorem C10_stale_window_never_pauses_witness :
    (∀ t ∈ [3600, 4000, 10000], (0 : Nat) + 3600 ≤ t) ∧
    (([3600, 4000, 10000].foldl (fun st t => st.increment_blocked_writes t)
        ({ mode := "active", blocked_write_count := 5, last_reset := 0 } :
          OrchestratorState)).mode = "active" ∧
     ([3600, 4000, 10000].foldl (fun st t => st.increment_blocked_writes t)
        ({ mode := "active", blocked_write_count := 5, last_reset := 0 } :
          OrchestratorState)).last_reset = 0 ∧
     ([3600, 4000, 10000].foldl (fun st t => st.increment_blocked_writes t)
        ({ mode := "active", blocked_write_count := 5, last_reset := 0 } :
          OrchestratorState)).blocked_write_count = 5 + 3) :=
  ⟨by decide,
   C10_stale_window_never_pauses
     { mode := "active", blocked_write_count := 5, last_reset := 0 }
     [3600, 4000, 10000] (by decide)⟩

/-! ## Helper lemmas: substring test -/

/-- Every list starts with itself. -/
theorem listStarts_self (l : List Char) : listStarts l l = true := by
  induction l with
  | nil => rfl
  | cons c cs ih => simp [listStarts, ih]

/-- Every string contains itself as a substring. -/
theorem pyIn_self (s : String) : pyIn s s = true := by
  unfold pyIn
  cases h : s.data with
  | nil => rfl
  | cons c cs => simp [listHasSub, listStarts_self]

/-! ## C1 -/

/-- C1: whenever the separator-normalized resource string equals a
protected identifier or contains one as a substring, `safe_write` raises
the blocked `PermissionError` (never allows the write), submits exactly
one audit record with `status="blocked"` and `attempted_write=True`, and
the governance counter goes up by exactly one. -/
theorem C1_protected_write_blocked (resources : List String)
    (resource actor : String) (encounter_id : Option String)
    (s : OrchestratorState) (now : Nat) (p : String)
    (hp : p ∈ resources)
    (hmatch : normalizeSeps resource = p ∨ pyIn p (normalizeSeps resource) = true) :
    safe_write resources resource actor encounter_id s now =
      { outcome := .blocked ("Blocked attempt to write to mapping resource: "
          ++ resource ++ ". Mapping datastore is READ-ONLY."),
        audits := [{ action := "mapping_write_blocked", actor := actor,
                     status := "blocked", resource_target := some resource,
                     attempted_write := true,
                     error_message := some "Attempted write to protected mapping resource",
                     encounter_id := encounter_id }],
        state := s.increment_blocked_writes now } ∧
    (safe_write resources resource actor encounter_id s now).audits.length = 1 ∧
    (safe_write resources resource actor encounter_id s now).state.blocked_write_count
      = s.blocked_write_count + 1 := by
  have hguard : is_mapping_resource resources resource = true := by
    unfold is_mapping_resource
    rcases hmatch with heq | hsub
    · have h1 : resources.any (fun q => q == normalizeSeps resource) = true :=
        List.any_eq_true.mpr ⟨p, hp, by simp [heq]⟩
      simp [h1]
    · have h2 : resources.any (fun q => pyIn q (normalizeSeps resource)) = true :=
        List.any_eq_true.mpr ⟨p, hp, hsub⟩
      simp [h2]
  refine ⟨?_, ?_, ?_⟩ <;>
    simp only [safe_write, if_pos hguard, increment_count, List.length_cons,
      List.length_nil]

/-- Witness for C1: a Windows-style path whose normalization contains the
protected identifier `data/namaste.csv`. -/
theorem C1_protected_write_blocked_witness :
    (("data/namaste.csv" ∈ MAPPING_DATA_RESOURCES_default) ∧
     (normalizeSeps "C:\\app\\data\\namaste.csv" = "data/namaste.csv" ∨
      pyIn "data/namaste.csv" (normalizeSeps "C:\\app\\data\\namaste.csv") = true)) ∧
    (safe_write MAPPING_DATA_RESOURCES_default "C:\\app\\data\\namaste.csv"
        "orchestrator_agent" none (OrchestratorState.init 0) 100 =
      { outcome := .blocked ("Blocked attempt to write to mapping resource: "
          ++ "C:\\app\\data\\namaste.csv" ++ ". Mapping datastore is READ-ONLY."),
        audits := [{ action := "mapping_write_blocked", actor := "orchestrator_agent",
                     status := "blocked",
                     resource_target := some "C:\\app\\data\\namaste.csv",
                     attempted_write := true,
                     error_message := some "Attempted write to protected mapping resource",
                     encounter_id := none }],
        state := (OrchestratorState.init 0).increment_blocked_writes 100 } ∧
     (safe_write MAPPING_DATA_RESOURCES_default "C:\\app\\data\\namaste.csv"
        "orchestrator_agent" none (OrchestratorState.init 0) 100).audits.length = 1 ∧
     (safe_write MAPPING_DATA_RESOURCES_default "C:\\app\\data\\namaste.csv"
        "orchestrator_agent" none
        (OrchestratorState.init 0) 100).state.blocked_write_count =
       (OrchestratorState.init 0).blocked_write_count + 1) :=
  ⟨⟨by decide, by decide⟩,
   C1_protected_write_blocked MAPPING_DATA_RESOURCES_default
     "C:\\app\\data\\namaste.csv" "orchestrator_agent" none
     (OrchestratorState.init 0) 100 "data/namaste.csv" (by decide) (by decide)⟩

/-! ## C9 -/

/-- C9: `audit_log` never propagates a failure of the underlying append:
when the database session raises, the call returns the `-1` sentinel
instead, so the guarded operation that triggered the audit continues. -/
theorem C9_audit_failure_swallowed
    (append : AuditRecord → Except String Int)
    (action actor status : String) (resource_target : Option String)
    (attempted_write : Bool) (error_message encounter_id : Option String)
    (err : String)
    (h : append { action := action, actor := actor, status := status,
                  resource_target := resource_target,
                  attempted_write := attempted_write,
                  error_message := error_message,
                  encounter_id := encounter_id } = .error err) :
    audit_log append action actor status resource_target attempted_write
      error_message encounter_id = -1 := by
  simp only [audit_log]
  rw [h]

/-- Witness for C9: an append that always raises yields `-1`. -/
theorem C9_audit_failure_swallowed_witness :
    ((fun _ : AuditRecord => (Except.error "connection refused" : Except String Int))
       { action := "mapping_write_blocked", actor := "orchestrator_agent",
         status := "blocked", resource_target := some "data/namaste.csv",
         attempted_write := true, error_message := none, encounter_id := none }
       = .error "connection refused") ∧
    audit_log (fun _ => .error "connection refused") "mapping_write_blocked"
      "orchestrator_agent" "blocked" (some "data/namaste.csv") true none none
      = -1 :=
  ⟨rfl,
   C9_audit_failure_swallowed (fun _ => .error "connection refused")
     "mapping_write_blocked" "orchestrator_agent" "blocked"
     (some "data/namaste.csv") true none none "connection refused" rfl⟩

/-! ## C4 -/

/-- The source's `max(0.0, min(1.0, c))` is the clamp of `c` to `[0,1]`. -/
theorem clamp_comm (c : ℚ) : pyMax 0 (pyMin 1 c) = min 1 (max 0 c) := by
  simp only [pyMax, pyMin, min_def, max_def]
  split_ifs <;> linarith

/-- C4: for every rule score, non-negative distance and optional reranker
probability, `compute_confidence` computes exactly the spec formula
(`similarity = 1/(1+distance)`, `combined = 0.6*ruleScore +
0.4*similarity`, reranker folding `0.7*combined + 0.3*p`, clamped to
`[0,1]`). -/
theorem C4_confidence_formula (rule_score distance : ℚ) (h : 0 ≤ distance)
    (p : Option ℚ) :
    compute_confidence rule_score distance p =
      confidence_formula_spec rule_score distance p := by
  unfold compute_confidence confidence_formula_spec
  rcases p with _ | prob <;> exact clamp_comm _

/-- Witness for C4 at `ruleScore = 1/2`, `distance = 2`, `p = 0.25`. -/
theorem C4_confidence_formula_witness :
    ((0 : ℚ) ≤ 2) ∧
    compute_confidence (1/2) 2 (some 0.25) =
      confidence_formula_spec (1/2) 2 (some 0.25) :=
  ⟨by decide, C4_confidence_formula (1/2) 2 (by decide) (some 0.25)⟩

/-! ## C7 -/

/-- C7 counterexample: resolving an already-dismissed task is NOT
rejected — the endpoint answers success and overwrites the terminal
task's status and resolution. -/
theorem C7_counterexample :
    resolve_review_task [dismissedTask] 1 "override" "bob" 200 =
      .ok [{ id := 1, status := "resolved", resolution := some "override",
             resolved_at := some 200, assigned_to := some "bob" }] 1 ∧
    dismissedTask.status = "dismissed" ∧
    dismissedTask.resolution = some "keep" := by
  decide

/-- `updateTask` rewrites exactly the row `find?` located (the update
keeps the id). -/
theorem find?_updateTask (tasks : List ReviewTask) (task_id : Nat)
    (f : ReviewTask → ReviewTask) (t : ReviewTask)
    (hfind : tasks.find? (fun u => u.id == task_id) = some t)
    (hid : (f t).id = t.id) :
    (updateTask task_id f tasks).find? (fun u => u.id == task_id) =
      some (f t) := by
  induction tasks with
  | nil => simp at hfind
  | cons a rest ih =>
    cases hb : (a.id == task_id) with
    | true =>
      simp only [List.find?_cons, hb] at hfind
      have hat : a = t := by simpa using hfind
      subst hat
      have hfb : ((f a).id == task_id) = true := by rw [hid]; exact hb
      unfold updateTask
      rw [if_pos hb]
      simp [List.find?_cons, hfb]
    | false =>
      simp only [List.find?_cons, hb] at hfind
      unfold updateTask
      rw [if_neg (by simp [hb])]
      simp only [List.find?_cons, hb]
      exact ih hfind

/-- C7, amended: the resolve endpoint never rejects an existing task for
being terminal — on any task found by id (including one already
`resolved` or `dismissed`) it answers success and rewrites the row to
`status="resolved"` with the new resolution, resolver and timestamp; only
a missing id is rejected. A terminal task's status and resolution are
therefore overwritten, not preserved. -/
theorem C7_resolve_ignores_terminal_status
    (tasks : List ReviewTask) (task_id : Nat) (resolution resolved_by : String)
    (now : Nat) (t : ReviewTask)
    (hfind : tasks.find? (fun u => u.id == task_id) = some t)
    (hterminal : t.status = "resolved" ∨ t.status = "dismissed") :
    resolve_review_task tasks task_id resolution resolved_by now =
      .ok (updateTask task_id (resolveUpdate resolution resolved_by now) tasks)
        task_id ∧
    (updateTask task_id (resolveUpdate resolution resolved_by now) tasks).find?
        (fun u => u.id == task_id) =
      some { t with status := "resolved", resolution := some resolution,
                    resolved_at := some now, assigned_to := some resolved_by } := by
  constructor
  · unfold resolve_review_task
    rw [hfind]
  · exact find?_updateTask tasks task_id _ t hfind rfl

/-- Witness for C7 on the concrete dismissed task. -/
theorem C7_resolve_ignores_terminal_status_witness :
    (([dismissedTask].find? (fun u => u.id == 1) = some dismissedTask) ∧
     (dismissedTask.status = "resolved" ∨ dismissedTask.status = "dismissed")) ∧
    (resolve_review_task [dismissedTask] 1 "override" "bob" 200 =
      .ok (updateTask 1 (resolveUpdate "override" "bob" 200) [dismissedTask]) 1 ∧
     (updateTask 1 (resolveUpdate "override" "bob" 200) [dismissedTask]).find?
        (fun u => u.id == 1) =
      some { dismissedTask with status := "resolved",
                                resolution := some "override",
                                resolved_at := some 200,
                                assigned_to := some "bob" }) :=
  ⟨⟨by decide, by decide⟩,
   C7_resolve_ignores_terminal_status [dismissedTask] 1 "override" "bob" 200
     dismissedTask (by decide) (by decide)⟩

/-! ## C5 -/

/-- C5 counterexample: for the concrete term `"jwara pain"` — absent from
the catalogs but containing the rule keyword `"jwara"` mapped to `R50.9`
— the rule tier does fire with the claimed formula
`0.6*1.0 + 0.4*(1/1.1)`, but that value is `53/55 ≈ 0.964`, which is not
approximately `0.66` (it is more than `0.25` away). -/
theorem C5_counterexample :
    (dictGet engRuleOnly.ayush_map (pyLower (pyStrip "jwara pain")) = none) ∧
    (suggest engRuleOnly "jwara pain" none 3).type = "rule" ∧
    (suggest engRuleOnly "jwara pain" none 3).results =
      [{ icd_code := "R50.9", icd_title := "Fever, unspecified",
         confidence := 53/55 }] ∧
    compute_confidence 1.0 0.1 = 53/55 ∧
    (1/4 : ℚ) ≤ (53 : ℚ)/55 - 0.66 := by
  have hconf : compute_confidence 1.0 0.1 = 53/55 := by
    unfold compute_confidence pyMin pyMax
    norm_num
  have hexact : exact_match engRuleOnly "jwara pain" = none := by decide
  have hrm : rule_match engRuleOnly "jwara pain" =
      some { icd_code := "R50.9", icd_title := "Fever, unspecified",
             icd_description := "Elevated body temperature",
             reason := "keyword rule: jwara -> R50.9" } := by decide
  refine ⟨by decide, ?_, ?_, hconf, by norm_num⟩ <;>
    simp [suggest, hexact, hrm, hconf]

/-- C5, amended: for a term absent from the term catalog whose lower-cased
text contains a rule-table keyword mapped to `R50.9` (first match in table
order, with `R50.9` present in the code catalog), `suggest` returns that
single result with method `rule` and confidence exactly
`53/55 ≈ 0.964 = 0.6*1.0 + 0.4*(1/1.1)` (rule score `1.0`, nominal
distance `0.1`) — not `≈ 0.66` as claimed. -/
theorem C5_rule_tier (e : MappingEngine) (term : String)
    (symptoms : Option String) (k : Nat) (key : String) (info : Icd11Entry)
    (hnotin : dictGet e.ayush_map (pyLower (pyStrip term)) = none)
    (hrule : keyword_to_icd.find? (fun q => pyIn q.1 (pyLower term)) =
      some (key, "R50.9"))
    (hicd : dictGet e.icd11_map "R50.9" = some info) :
    suggest e term symptoms k =
      { type := "rule",
        results := [{ icd_code := "R50.9", icd_title := info.title,
                      confidence := 53/55 }],
        result_provenance :=
          [.ruleStep ("keyword rule: " ++ key ++ " -> " ++ "R50.9")
            "csv_keyword_mapping"],
        provenance := none } ∧
    (53 : ℚ)/55 = 0.6 * 1.0 + 0.4 * (1/(1 + 0.1)) := by
  have hexact : exact_match e term = none := by
    simp only [exact_match, hnotin]
  have hrm : rule_match e term =
      some { icd_code := "R50.9", icd_title := info.title,
             icd_description := info.description,
             reason := "keyword rule: " ++ key ++ " -> " ++ "R50.9" } := by
    simp only [rule_match, hrule, hicd]
  have hconf : compute_confidence 1.0 0.1 = 53/55 := by
    unfold compute_confidence pyMin pyMax
    norm_num
  refine ⟨?_, by norm_num⟩
  simp only [suggest, hexact, hrm, hconf]

/-- Witness for the amended C5 on the concrete engine and term. -/
theorem C5_rule_tier_witness :
    ((dictGet engRuleOnly.ayush_map (pyLower (pyStrip "jwara pain")) = none) ∧
     (keyword_to_icd.find? (fun q => pyIn q.1 (pyLower "jwara pain")) =
       some ("jwara", "R50.9")) ∧
     (dictGet engRuleOnly.icd11_map "R50.9" = some feverInfo)) ∧
    (suggest engRuleOnly "jwara pain" none 3 =
      { type := "rule",
        results := [{ icd_code := "R50.9", icd_title := feverInfo.title,
                      confidence := 53/55 }],
        result_provenance :=
          [.ruleStep ("keyword rule: " ++ "jwara" ++ " -> " ++ "R50.9")
            "csv_keyword_mapping"],
        provenance := none } ∧
     (53 : ℚ)/55 = 0.6 * 1.0 + 0.4 * (1/(1 + 0.1))) :=
  ⟨⟨by decide, by decide, by decide⟩,
   C5_rule_tier engRuleOnly "jwara pain" none 3 "jwara" feverInfo
     (by decide) (by decide) (by decide)⟩

/-! ## Helper lemmas: lower-casing, stripping and padding -/

/-- No character with code point 33 or above is whitespace. -/
theorem ws_false_of_toNat_ge (d : Char) (h : 33 ≤ d.toNat) :
    d.isWhitespace = false := by
  unfold Char.isWhitespace
  simp only [Bool.or_eq_false_iff, decide_eq_false_iff_not]
  refine ⟨⟨⟨?_, ?_⟩, ?_⟩, ?_⟩ <;>
    · intro heq
      subst heq
      exact absurd h (by decide)

/-- `Char.ofNat` of a valid code point decodes back to it. -/
theorem toNat_ofNat_valid (m : Nat) (hv : Nat.isValidChar m) :
    (Char.ofNat m).toNat = m := by
  unfold Char.ofNat
  rw [dif_pos hv]
  rfl

/-- ASCII lower-casing never creates or destroys whitespace. -/
theorem isWS_pyLowerChar (c : Char) : isWS (pyLowerChar c) = isWS c := by
  unfold isWS pyLowerChar Char.toLower
  show (if c.toNat ≥ 65 ∧ c.toNat ≤ 90 then
          Char.ofNat (c.toNat + 32) else c).isWhitespace = c.isWhitespace
  by_cases h : c.toNat ≥ 65 ∧ c.toNat ≤ 90
  · rw [if_pos h]
    have hv : Nat.isValidChar (c.toNat + 32) := Or.inl (by omega)
    have ht : (Char.ofNat (c.toNat + 32)).toNat = c.toNat + 32 :=
      toNat_ofNat_valid _ hv
    rw [ws_false_of_toNat_ge _ (by rw [ht]; omega),
        ws_false_of_toNat_ge _ (by omega : 33 ≤ c.toNat)]
  · rw [if_neg h]

/-- Dropping whitespace skips over an all-whitespace prefix. -/
theorem dropWhile_ws_append (ws l : List Char) (h : ∀ c ∈ ws, isWS c = true) :
    (ws ++ l).dropWhile isWS = l.dropWhile isWS := by
  induction ws with
  | nil => rfl
  | cons a as ih =>
    rw [List.cons_append, List.dropWhile_cons, h a (by simp)]
    exact ih (fun c hc => h c (by simp [hc]))

/-- An all-whitespace list strips to nothing. -/
theorem dropWhile_all_ws (ws : List Char) (h : ∀ c ∈ ws, isWS c = true) :
    ws.dropWhile isWS = [] := by
  have := dropWhile_ws_append ws [] h
  simpa using this

/-- A nonempty list unchanged by `dropWhile` starts with a
non-whitespace character. -/
theorem head_not_ws (a : Char) (as : List Char)
    (h : (a :: as).dropWhile isWS = a :: as) : isWS a = false := by
  cases hb : isWS a with
  | false => rfl
  | true =>
    rw [List.dropWhile_cons, hb] at h
    simp only [if_true] at h
    have hle := (List.dropWhile_suffix (l := as) isWS).length_le
    rw [h] at hle
    simp at hle

/-- Being unchanged by `dropWhile isWS` transfers along equal whitespace
patterns. -/
theorem dropWhile_eq_self_transfer (x y : List Char)
    (hmap : x.map isWS = y.map isWS) (hy : y.dropWhile isWS = y) :
    x.dropWhile isWS = x := by
  cases x with
  | nil => rfl
  | cons a as =>
    cases y with
    | nil => simp at hmap
    | cons b bs =>
      simp only [List.map_cons, List.cons.injEq] at hmap
      rw [List.dropWhile_cons, hmap.1, head_not_ws b bs hy]
      simp

/-- Stripping a list that is already stripped on both ends and padding it
with whitespace on both sides recovers the list. -/
theorem stripList_pad (wsl wsr t : List Char)
    (hl : ∀ c ∈ wsl, isWS c = true) (hr : ∀ c ∈ wsr, isWS c = true)
    (ht1 : t.dropWhile isWS = t) (ht2 : t.reverse.dropWhile isWS = t.reverse) :
    stripList (wsl ++ t ++ wsr) = t := by
  unfold stripList
  rw [List.append_assoc, dropWhile_ws_append wsl _ hl]
  cases t with
  | nil =>
    rw [List.nil_append, dropWhile_all_ws wsr hr]
    rfl
  | cons a as =>
    rw [List.cons_append, List.dropWhile_cons,
        head_not_ws a as ht1]
    simp only [if_false, Bool.false_eq_true]
    rw [← List.cons_append, List.reverse_append,
        dropWhile_ws_append wsr.reverse _ (fun c hc => hr c (by simpa using hc)),
        ht2, List.reverse_reverse]

/-- The catalog-key facts following from the key being its own
normalization: it is already lower-case and stripped on both ends. -/
theorem key_norm_parts (key : String) (h : pyLower (pyStrip key) = key) :
    pyLower key = key ∧ key.data.dropWhile isWS = key.data ∧
      key.data.reverse.dropWhile isWS = key.data.reverse := by
  have hlen : (stripList key.data).length = key.data.length := by
    have hc := congrArg (fun s : String => s.data.length) h
    simpa [pyLower, pyStrip] using hc
  have ha : key.data.dropWhile isWS <:+ key.data := List.dropWhile_suffix _
  have hb : (key.data.dropWhile isWS).reverse.dropWhile isWS <:+
      (key.data.dropWhile isWS).reverse := List.dropWhile_suffix _
  have hlen2 := hb.length_le
  have hlen3 := ha.length_le
  have hlen1 : ((key.data.dropWhile isWS).reverse.dropWhile isWS).length =
      key.data.length := by simpa [stripList] using hlen
  simp only [List.length_reverse] at hlen2
  have heq1 : key.data.dropWhile isWS = key.data := ha.eq_of_length (by omega)
  have heq2 : (key.data.dropWhile isWS).reverse.dropWhile isWS =
      (key.data.dropWhile isWS).reverse :=
    hb.eq_of_length (by rw [heq1] at hlen1 ⊢; simpa using hlen1)
  rw [heq1] at heq2
  have hstrip : stripList key.data = key.data := by
    unfold stripList
    rw [heq1, heq2, List.reverse_reverse]
  have hps : pyStrip key = key := by
    unfold pyStrip
    rw [hstrip]
  have hfinal : pyLower key = key := by
    conv_lhs => rw [← hps]
    exact h
  exact ⟨hfinal, heq1, heq2⟩

/-! ## C3 -/

/-- C3: for every catalog key (a loader-normalized term) linked to a code
present in the code catalog, `suggest` on ANY whitespace-padded case
variant of the key returns exactly that code as the single result, with
confidence exactly `0.99` and tier `exact` (the code's name for the exact
tier is the `"exact"` response type). -/
theorem C3_exact_tier (e : MappingEngine) (key : String) (entry : AyushEntry)
    (info : Icd11Entry) (s : String) (wsl wsr t : List Char)
    (symptoms : Option String) (k : Nat)
    (hkey : pyLower (pyStrip key) = key)
    (hlook : dictGet e.ayush_map key = some entry)
    (hlinked : entry.icd_code ≠ "")
    (hcode : dictGet e.icd11_map entry.icd_code = some info)
    (hs : s.data = wsl ++ t ++ wsr)
    (hwsl : ∀ c ∈ wsl, isWS c = true)
    (hwsr : ∀ c ∈ wsr, isWS c = true)
    (hcase : t.map pyLowerChar = key.data) :
    suggest e s symptoms k =
      { type := "exact",
        results := [{ icd_code := entry.icd_code, icd_title := info.title,
                      confidence := 0.99 }],
        result_provenance := [.exactStep "namaste_csv" entry.ayush],
        provenance := none } := by
  obtain ⟨hlowkey, hk1, hk2⟩ := key_norm_parts key hkey
  have hmapws : t.map isWS = key.data.map isWS := by
    have hfun : (fun c => isWS (pyLowerChar c)) = isWS := funext isWS_pyLowerChar
    calc t.map isWS
        = t.map (fun c => isWS (pyLowerChar c)) := by rw [hfun]
      _ = (t.map pyLowerChar).map isWS := by rw [List.map_map]; rfl
      _ = key.data.map isWS := by rw [hcase]
  have ht1 : t.dropWhile isWS = t :=
    dropWhile_eq_self_transfer t key.data hmapws hk1
  have ht2 : t.reverse.dropWhile isWS = t.reverse := by
    apply dropWhile_eq_self_transfer t.reverse key.data.reverse ?_ hk2
    rw [List.map_reverse, List.map_reverse, hmapws]
  have hstrip : pyStrip s = ⟨t⟩ := by
    unfold pyStrip
    rw [hs, stripList_pad wsl wsr t hwsl hwsr ht1 ht2]
  have hnorm : pyLower (pyStrip s) = key := by
    rw [hstrip]
    unfold pyLower
    show String.mk (t.map pyLowerChar) = key
    rw [hcase]
  have hexact : exact_match e s =
      some { icd_code := entry.icd_code, icd_title := info.title,
             icd_description := some info.description,
             ayush_term := entry.ayush, source := "namaste_csv_exact_match" } := by
    simp only [exact_match, hnorm, hlook]
    rw [if_pos hlinked]
    simp only [hcode]
  simp only [suggest, hexact]

/-- Witness for C3: the mixed-case padded variant `"  JwArA "` of the
catalog key `"jwara"` resolves to `R50.9` at confidence `0.99`. -/
theorem C3_exact_tier_witness :
    ((pyLower (pyStrip "jwara") = "jwara") ∧
     (dictGet engJwara.ayush_map "jwara" = some jwaraEntry) ∧
     (jwaraEntry.icd_code ≠ "") ∧
     (dictGet engJwara.icd11_map jwaraEntry.icd_code = some feverInfo) ∧
     ("  JwArA ".data = [' ', ' '] ++ "JwArA".data ++ [' ']) ∧
     (∀ c ∈ [' ', ' '], isWS c = true) ∧
     (∀ c ∈ [' '], isWS c = true) ∧
     ("JwArA".data.map pyLowerChar = "jwara".data)) ∧
    suggest engJwara "  JwArA " none 3 =
      { type := "exact",
        results := [{ icd_code := jwaraEntry.icd_code,
                      icd_title := feverInfo.title, confidence := 0.99 }],
        result_provenance := [.exactStep "namaste_csv" jwaraEntry.ayush],
        provenance := none } :=
  ⟨⟨by decide, by decide, by decide, by decide, by decide, by decide,
    by decide, by decide⟩,
   C3_exact_tier engJwara "jwara" jwaraEntry feverInfo "  JwArA "
     [' ', ' '] [' '] ("JwArA".data) none 3 (by decide) (by decide)
     (by decide) (by decide) (by decide) (by decide) (by decide) (by decide)⟩

/-! ## C6 -/

/-- C6: for a term absent from the term catalog, matching no rule keyword,
with no candidates from the CSV/vector search and none from the external
fallback, `suggest` still returns (it is a total function, so it cannot
raise) an outcome with an empty result list, the vector-tier response type
(`"faiss"` in the code), and a provenance entry saying no candidates were
found. -/
theorem C6_unknown_term_empty (e : MappingEngine) (term : String)
    (symptoms : Option String) (k : Nat)
    (h1 : dictGet e.ayush_map (pyLower (pyStrip term)) = none)
    (h2 : keyword_to_icd.find? (fun q => pyIn q.1 (pyLower term)) = none)
    (h3 : embedding_candidates e (queryText term symptoms) (k * 2) = [])
    (h4 : fallback_candidates e (queryText term symptoms) k = []) :
    suggest e term symptoms k =
      { type := "faiss", results := [], result_provenance := [],
        provenance := some [.faissError "No candidates found"] } := by
  have hexact : exact_match e term = none := by simp only [exact_match, h1]
  have hrm : rule_match e term = none := by simp only [rule_match, h2]
  simp [suggest, hexact, hrm, h3, h4]

/-- Witness for C6: the empty engine and the term `"unknownterm"`. -/
theorem C6_unknown_term_empty_witness :
    ((dictGet engEmpty.ayush_map (pyLower (pyStrip "unknownterm")) = none) ∧
     (keyword_to_icd.find? (fun q => pyIn q.1 (pyLower "unknownterm")) = none) ∧
     (embedding_candidates engEmpty (queryText "unknownterm" none) (3 * 2) = []) ∧
     (fallback_candidates engEmpty (queryText "unknownterm" none) 3 = [])) ∧
    suggest engEmpty "unknownterm" none 3 =
      { type := "faiss", results := [], result_provenance := [],
        provenance := some [.faissError "No candidates found"] } :=
  ⟨⟨by decide, by decide, by decide, by decide⟩,
   C6_unknown_term_empty engEmpty "unknownterm" none 3 (by decide) (by decide)
     (by decide) (by decide)⟩

end Caresync
